import Mathlib

/-!
Verification of the dispatch engine of `bot.py` (Report-Telegram).

The development shallowly embeds the components of the bot:

* `PhoneNumberManager` (the identity pool): `is_valid_number`,
  `get_country_code`, `load_phone_numbers`, `get_phone_number`,
  `mark_number_status`;
* `ReportBot` (the batch scheduler / session registry): the admission
  phase of `mass_report`, `cancel_user_tasks`, the per-unit retry loop
  `report_with_semaphore`, and the attempt executor `report_with_number`.

Python strings are modelled by Lean `String`, Python character-level
operations (`startswith`, slicing, `len`, `strip`) by explicit helpers
over the character list, Python sets of strings by `Finset String`, and
Python dicts with a `.get(k, 0)` discipline by total functions with
default `0`.  Nondeterminism of `random.choice` and of set-iteration
order is made explicit through oracle parameters (`pick`, `worder`).
-/

set_option autoImplicit false

/-- Python `s.startswith(p)`: character-level prefix test. -/
def py_startswith (s p : String) : Bool :=
  p.data.isPrefixOf s.data

/-- Python `s[n:]`: drop the first `n` characters. -/
def py_drop (s : String) (n : Nat) : String :=
  ⟨s.data.drop n⟩

/-- Python `len(s)`: number of characters. -/
def py_len (s : String) : Nat :=
  s.data.length

/-- Python whitespace, as stripped by `str.strip()`. -/
def py_isspace (c : Char) : Bool :=
  [' ', '\t', '\n', '\r', '\x0b', '\x0c'].contains c

/-- Python `s.strip()`: remove leading and trailing whitespace. -/
def py_strip (s : String) : String :=
  ⟨((s.data.dropWhile py_isspace).reverse.dropWhile py_isspace).reverse⟩

/-- The `EU_COUNTRIES` dict of `PhoneNumberManager`, as an association
list in Python dict insertion order (country code, country name). -/
def EU_COUNTRIES : List (String × String) :=
  [("43", "AT"), ("32", "BE"), ("45", "DK"), ("358", "FI"),
   ("33", "FR"), ("49", "DE"), ("353", "IE"), ("39", "IT"),
   ("31", "NL"), ("48", "PL"), ("34", "ES"), ("46", "SE")]

/-- `PhoneNumberManager.is_valid_number`: a number is accepted when it
starts with a plus sign and, after removing it, either starts with `91`
and has 12 characters, or starts with a listed EU country code followed
by 9 to 10 further characters. -/
def is_valid_number (number : String) : Bool :=
  if !(py_startswith number ("+")) then false
  else
    let n := py_drop number 1
    if py_startswith n ("91") && py_len n == 12 then true
    else
      EU_COUNTRIES.any (fun p =>
        py_startswith n p.1 &&
        (decide (9 ≤ py_len (py_drop n (py_len p.1))) &&
         decide (py_len (py_drop n (py_len p.1)) ≤ 10)))

/-- `PhoneNumberManager.get_country_code`: classify a number by the
first matching country code (Indian `91` first, then the EU dict in
insertion order), falling back to `UN`. -/
def get_country_code (number : String) : String :=
  if !(py_startswith number ("+")) then "UN"
  else
    let n := py_drop number 1
    if py_startswith n ("91") then "IN"
    else
      match EU_COUNTRIES.find? (fun p => py_startswith n p.1) with
      | some p => p.2
      | none => "UN"

/-- `PhoneNumberManager.load_phone_numbers`, applied to the lines of
`phone_numbers.txt`: strip each line, skip blank lines and lines
starting with `#`, and keep exactly the lines accepted by
`is_valid_number`. -/
def load_phone_numbers : List String → List String
  | [] => []
  | line :: rest =>
    let l := py_strip line
    if l == "" || py_startswith l ("#") then load_phone_numbers rest
    else if is_valid_number l then l :: load_phone_numbers rest
    else load_phone_numbers rest

/-- The validity predicate as the specification words it: the part
after the prefix must consist of digits (Indian `91` plus ten digits,
or an EU country code plus 9 to 10 digits).  Stated only to be compared
with `is_valid_number`, which checks prefixes and lengths but never
digit-hood. -/
def digit_valid_number (number : String) : Bool :=
  py_startswith number ("+") &&
  (let n := py_drop number 1
   (py_startswith n ("91") && py_len n == 12 && n.data.all Char.isDigit) ||
   EU_COUNTRIES.any (fun p =>
     py_startswith n p.1 &&
     (decide (9 ≤ py_len (py_drop n (py_len p.1))) &&
      decide (py_len (py_drop n (py_len p.1)) ≤ 10) &&
      (py_drop n (py_len p.1)).data.all Char.isDigit)))

/-- Claim C10 counterexample: `load_phone_numbers` keeps the line
`+91abcdefghij`, which `is_valid_number` accepts although the characters
after `91` are not digits, so loaded identities need not satisfy the
digit-based description of validity. -/
theorem load_phone_numbers_accepts_nondigits :
    load_phone_numbers [("+91abcdefghij")] = [("+91abcdefghij")] ∧
    is_valid_number ("+91abcdefghij") = true ∧
    digit_valid_number ("+91abcdefghij") = false := by
  decide

/-- Claim C10 (amended): every identity returned by `load_phone_numbers`
satisfies `is_valid_number` (in particular it starts with `+`), is not
blank, does not start with `#`, and is the stripped form of one of the
input lines; the returned list is the only source of pool members. -/
theorem load_phone_numbers_valid (lines : List String) (x : String)
    (hx : x ∈ load_phone_numbers lines) :
    is_valid_number x = true ∧
    py_startswith x ("+") = true ∧
    x ≠ "" ∧
    py_startswith x ("#") = false ∧
    ∃ l ∈ lines, x = py_strip l := by
  induction lines with
  | nil => simp [load_phone_numbers] at hx
  | cons line rest ih =>
    rw [load_phone_numbers] at hx
    by_cases h1 : (py_strip line == "" || py_startswith (py_strip line) ("#")) = true
    · rw [if_pos h1] at hx
      obtain ⟨hv, hplus, hne, hh, l, hl, hxl⟩ := ih hx
      exact ⟨hv, hplus, hne, hh, l, List.mem_cons_of_mem _ hl, hxl⟩
    · rw [if_neg h1] at hx
      by_cases h2 : is_valid_number (py_strip line) = true
      · rw [if_pos h2] at hx
        rcases List.mem_cons.mp hx with hx0 | hx1
        · subst hx0
          rw [Bool.or_eq_true, not_or] at h1
          obtain ⟨hne', hh'⟩ := h1
          refine ⟨h2, ?_, ?_, ?_, line, List.mem_cons_self _ _, rfl⟩
          · rw [is_valid_number] at h2
            by_cases hp : py_startswith (py_strip line) ("+") = true
            · exact hp
            · rw [if_pos (by simp [hp])] at h2
              exact absurd h2 (by simp)
          · intro he
            rw [he] at hne'
            exact hne' rfl
          · exact Bool.not_eq_true _ ▸ (Bool.eq_false_iff.mpr hh')
        · obtain ⟨hv, hplus, hne, hh, l, hl, hxl⟩ := ih hx1
          exact ⟨hv, hplus, hne, hh, l, List.mem_cons_of_mem _ hl, hxl⟩
      · rw [if_neg h2] at hx
        obtain ⟨hv, hplus, hne, hh, l, hl, hxl⟩ := ih hx
        exact ⟨hv, hplus, hne, hh, l, List.mem_cons_of_mem _ hl, hxl⟩

/-- Claim C10 witness: a concrete load with a padded valid line, a
comment line and a blank line keeps exactly the stripped valid number. -/
theorem load_phone_numbers_valid_witness :
    is_valid_number ("+911234567890") = true ∧
    py_startswith ("+911234567890") ("+") = true ∧
    ("+911234567890" : String) ≠ "" ∧
    py_startswith ("+911234567890") ("#") = false ∧
    ∃ l ∈ ["  +911234567890 ", ("# comment"), ""],
      ("+911234567890" : String) = py_strip l :=
  load_phone_numbers_valid ["  +911234567890 ", ("# comment"), ""]
    ("+911234567890") (by decide)

/-- The mutable state of `PhoneNumberManager.__init__`: the loaded list,
the two health sets, the (unused) rotation index, and the country
rotation bookkeeping (`last_used_country`, `country_usage_count` with
Python `.get(c, 0)` semantics). -/
structure PhoneNumberManager where
  phone_numbers : List String
  working_numbers : Finset String
  failed_numbers : Finset String
  current_index : Nat
  last_used_country : Option String
  country_usage_count : String → Nat

/-- A fresh `PhoneNumberManager` holding the given loaded numbers:
both health sets empty, index `0`, no country bookkeeping. -/
def init_manager (numbers : List String) : PhoneNumberManager :=
  { phone_numbers := numbers
    working_numbers := ∅
    failed_numbers := ∅
    current_index := 0
    last_used_country := none
    country_usage_count := fun _ => 0 }

/-- `PhoneNumberManager.mark_number_status`: on success `add` the number
to `working_numbers` and `discard` it from `failed_numbers`; on failure
`add` it to `failed_numbers` and `discard` it from `working_numbers`. -/
def mark_number_status (s : PhoneNumberManager) (number : String)
    (success : Bool) : PhoneNumberManager :=
  if success then
    { s with
      working_numbers := insert number s.working_numbers
      failed_numbers := s.failed_numbers.erase number }
  else
    { s with
      failed_numbers := insert number s.failed_numbers
      working_numbers := s.working_numbers.erase number }

/-- Replay a sequence of `mark_number_status` calls (number, success). -/
def run_marks (s : PhoneNumberManager) :
    List (String × Bool) → PhoneNumberManager
  | [] => s
  | e :: es => run_marks (mark_number_status s e.1 e.2) es

lemma mark_number_status_disjoint (s : PhoneNumberManager)
    (number : String) (success : Bool)
    (h : s.working_numbers ∩ s.failed_numbers = ∅) :
    (mark_number_status s number success).working_numbers ∩
      (mark_number_status s number success).failed_numbers = ∅ := by
  rw [Finset.eq_empty_iff_forall_not_mem] at h ⊢
  intro x hx
  rw [Finset.mem_inter] at hx
  cases success with
  | true =>
    simp only [mark_number_status, if_pos, Finset.mem_insert,
      Finset.mem_erase] at hx
    rcases hx with ⟨hx1 | hx1, hx2, hx3⟩
    · exact hx2 hx1
    · exact h x (Finset.mem_inter.mpr ⟨hx1, hx3⟩)
  | false =>
    simp only [mark_number_status, Bool.false_eq_true, if_neg,
      Finset.mem_insert, Finset.mem_erase, not_false_eq_true] at hx
    rcases hx with ⟨⟨hx2, hx3⟩, hx1 | hx1⟩
    · exact hx2 hx1
    · exact h x (Finset.mem_inter.mpr ⟨hx3, hx1⟩)

lemma run_marks_disjoint (events : List (String × Bool)) :
    ∀ s : PhoneNumberManager,
      s.working_numbers ∩ s.failed_numbers = ∅ →
      (run_marks s events).working_numbers ∩
        (run_marks s events).failed_numbers = ∅ := by
  induction events with
  | nil => intro s h; exact h
  | cons e es ih =>
    intro s h
    exact ih _ (mark_number_status_disjoint s e.1 e.2 h)

/-- Claim C1: starting from a fresh manager, after any sequence of
`mark_number_status` calls the `working_numbers` and `failed_numbers`
sets are disjoint, so an identity is in at most one of them; moreover,
from any state, marking an identity as working and then as failed
leaves it in `failed_numbers` only, and marking it as failed and then
as working leaves it in `working_numbers` only. -/
theorem mark_number_status_exclusive (numbers : List String)
    (events : List (String × Bool)) (n : String)
    (s : PhoneNumberManager) :
    ((run_marks (init_manager numbers) events).working_numbers ∩
       (run_marks (init_manager numbers) events).failed_numbers = ∅) ∧
    (n ∈ (mark_number_status (mark_number_status s n true) n
            false).failed_numbers ∧
     n ∉ (mark_number_status (mark_number_status s n true) n
            false).working_numbers) ∧
    (n ∈ (mark_number_status (mark_number_status s n false) n
            true).working_numbers ∧
     n ∉ (mark_number_status (mark_number_status s n false) n
            true).failed_numbers) := by
  refine ⟨run_marks_disjoint events _ ?_, ⟨?_, ?_⟩, ⟨?_, ?_⟩⟩
  · simp [init_manager]
  · simp [mark_number_status]
  · simp [mark_number_status]
  · simp [mark_number_status]
  · simp [mark_number_status]

/-- Claim C1 witness: a concrete success-then-failure history for one
number, replayed from a fresh manager. -/
theorem mark_number_status_exclusive_witness :
    ((run_marks (init_manager [("+911234567890")])
        [(("+911234567890"), true), (("+911234567890"), false)]).working_numbers ∩
       (run_marks (init_manager [("+911234567890")])
        [(("+911234567890"), true), (("+911234567890"), false)]).failed_numbers = ∅) ∧
    (("+911234567890" : String) ∈
       (mark_number_status (mark_number_status (init_manager [])
          ("+911234567890") true) ("+911234567890") false).failed_numbers ∧
     ("+911234567890" : String) ∉
       (mark_number_status (mark_number_status (init_manager [])
          ("+911234567890") true) ("+911234567890") false).working_numbers) ∧
    (("+911234567890" : String) ∈
       (mark_number_status (mark_number_status (init_manager [])
          ("+911234567890") false) ("+911234567890") true).working_numbers ∧
     ("+911234567890" : String) ∉
       (mark_number_status (mark_number_status (init_manager [])
          ("+911234567890") false) ("+911234567890") true).failed_numbers) :=
  mark_number_status_exclusive [("+911234567890")]
    [(("+911234567890"), true), (("+911234567890"), false)]
    ("+911234567890") (init_manager [])

/-- The candidate collection iterated by `get_phone_number`: the
`working_numbers` set when it is non-empty (its iteration order is the
caller-supplied oracle `worder`), otherwise the full loaded list. -/
def gpn_candidates (s : PhoneNumberManager) (worder : List String) :
    List String :=
  if s.working_numbers = ∅ then s.phone_numbers else worder

/-- Keys of a Python dict built by repeated insertion: first-occurrence
order, skipping elements already seen. -/
def dict_keys (seen : List String) : List String → List String
  | [] => []
  | x :: xs =>
    if x ∈ seen then dict_keys seen xs
    else x :: dict_keys (x :: seen) xs

/-- The usage-count update of `get_phone_number`: when a country was
used last, increment its entry (`.get(c, 0) + 1`). -/
def bump_usage (usage : String → Nat) : Option String → String → Nat
  | none => usage
  | some c => fun x => if x = c then usage c + 1 else usage x

/-- Python `min(x0 :: xs, key=f)`: the first element attaining the
minimum of `f`. -/
def py_min_by (f : String → Nat) (x0 : String) (xs : List String) :
    String :=
  xs.foldl (fun b y => if f y < f b then y else b) x0

/-- The main branch of `get_phone_number` once the grouped countries
are known to be non-empty: bump the usage of the last used country,
take the least-used country, and return the `pick`-th member of that
country's group together with the updated manager. -/
def gpn_select (s : PhoneNumberManager) (candidates : List String)
    (c0 : String) (cs : List String) (pick : Nat) :
    String × PhoneNumberManager :=
  let usage := bump_usage s.country_usage_count s.last_used_country
  let selected_country := py_min_by usage c0 cs
  let group := candidates.filter
    (fun n => get_country_code n == selected_country)
  (group.getD (pick % group.length) "",
   { s with
     last_used_country := some selected_country
     country_usage_count := usage })

/-- `PhoneNumberManager.get_phone_number`: return the empty string when
no numbers are loaded; otherwise group the candidates by country code
and select from the least-used country.  `worder` is the iteration
order of the `working_numbers` set and `pick` resolves the
`random.choice` draws. -/
def get_phone_number (s : PhoneNumberManager) (worder : List String)
    (pick : Nat) : String × PhoneNumberManager :=
  if s.phone_numbers = [] then ("", s)
  else
    match dict_keys [] ((gpn_candidates s worder).map get_country_code) with
    | [] => (s.phone_numbers.getD (pick % s.phone_numbers.length) "", s)
    | c0 :: cs => gpn_select s (gpn_candidates s worder) c0 cs pick

lemma dict_keys_subset :
    ∀ (l seen : List String) (x : String), x ∈ dict_keys seen l → x ∈ l := by
  intro l
  induction l with
  | nil => intro seen x h; simp [dict_keys] at h
  | cons y ys ih =>
    intro seen x h
    rw [dict_keys] at h
    by_cases hy : y ∈ seen
    · exact List.mem_cons_of_mem _ (ih seen x (by rwa [if_pos hy] at h))
    · rw [if_neg hy] at h
      rcases List.mem_cons.mp h with h1 | h2
      · exact h1 ▸ List.mem_cons_self _ _
      · exact List.mem_cons_of_mem _ (ih _ x h2)

lemma dict_keys_cons_ne_nil (y : String) (ys : List String) :
    dict_keys [] (y :: ys) ≠ [] := by
  rw [dict_keys]
  simp

lemma py_min_by_mem (f : String → Nat) :
    ∀ (xs : List String) (x0 : String),
      py_min_by f x0 xs = x0 ∨ py_min_by f x0 xs ∈ xs := by
  intro xs
  induction xs with
  | nil => intro x0; left; rfl
  | cons y ys ih =>
    intro x0
    have step : py_min_by f x0 (y :: ys) =
        py_min_by f (if f y < f x0 then y else x0) ys := rfl
    rcases ih (if f y < f x0 then y else x0) with h | h
    · rw [step, h]
      by_cases hc : f y < f x0
      · right; rw [if_pos hc]; exact List.mem_cons_self _ _
      · left; rw [if_neg hc]
    · right
      rw [step]
      exact List.mem_cons_of_mem _ h

lemma list_getD_mem :
    ∀ (l : List String) (n : Nat), n < l.length → ∀ d, l.getD n d ∈ l := by
  intro l
  induction l with
  | nil => intro n h; simp at h
  | cons a as ih =>
    intro n h d
    cases n with
    | zero => simp [List.getD_cons_zero]
    | succ m =>
      rw [List.getD_cons_succ]
      exact List.mem_cons_of_mem _ (ih m (Nat.lt_of_succ_lt_succ h) d)

lemma gpn_select_spec (s : PhoneNumberManager) (candidates : List String)
    (c0 : String) (cs : List String) (pick : Nat)
    (h : ∀ c ∈ c0 :: cs, ∃ x ∈ candidates, get_country_code x = c) :
    (gpn_select s candidates c0 cs pick).1 ∈ candidates ∧
    (gpn_select s candidates c0 cs pick).2.last_used_country =
      some (get_country_code (gpn_select s candidates c0 cs pick).1) ∧
    (gpn_select s candidates c0 cs pick).2.current_index =
      s.current_index ∧
    (gpn_select s candidates c0 cs pick).2.phone_numbers =
      s.phone_numbers ∧
    (gpn_select s candidates c0 cs pick).2.working_numbers =
      s.working_numbers ∧
    (gpn_select s candidates c0 cs pick).2.failed_numbers =
      s.failed_numbers := by
  have hsel : py_min_by (bump_usage s.country_usage_count
      s.last_used_country) c0 cs ∈ c0 :: cs := by
    rcases py_min_by_mem (bump_usage s.country_usage_count
        s.last_used_country) cs c0 with h1 | h1
    · rw [h1]; exact List.mem_cons_self _ _
    · exact List.mem_cons_of_mem _ h1
  obtain ⟨x, hx, hgx⟩ := h _ hsel
  set selc := py_min_by (bump_usage s.country_usage_count
    s.last_used_country) c0 cs with hselc
  set group := candidates.filter
    (fun n => get_country_code n == selc) with hgroup
  have hxg : x ∈ group := by
    rw [hgroup, List.mem_filter]
    exact ⟨hx, by simp [hgx]⟩
  have hlen : 0 < group.length :=
    List.length_pos.mpr (List.ne_nil_of_mem hxg)
  have hmem : group.getD (pick % group.length) "" ∈ group :=
    list_getD_mem group (pick % group.length)
      (Nat.mod_lt pick hlen) ""
  have hres : (gpn_select s candidates c0 cs pick).1 =
      group.getD (pick % group.length) "" := rfl
  have hmem' := hmem
  rw [hgroup, List.mem_filter] at hmem'
  refine ⟨?_, ?_, rfl, rfl, rfl, rfl⟩
  · rw [hres]; exact hmem'.1
  · have : get_country_code (group.getD (pick % group.length) "") =
        selc := by
      have := hmem'.2
      simpa using this
    rw [hres]
    show some selc = _
    rw [this]

lemma get_phone_number_spec (s : PhoneNumberManager)
    (worder : List String) (pick : Nat)
    (hp : s.phone_numbers ≠ [])
    (hc : gpn_candidates s worder ≠ []) :
    (get_phone_number s worder pick).1 ∈ gpn_candidates s worder ∧
    (get_phone_number s worder pick).2.last_used_country =
      some (get_country_code (get_phone_number s worder pick).1) ∧
    (get_phone_number s worder pick).2.current_index = s.current_index ∧
    (get_phone_number s worder pick).2.phone_numbers =
      s.phone_numbers ∧
    (get_phone_number s worder pick).2.working_numbers =
      s.working_numbers := by
  obtain ⟨a, as, hcand⟩ := List.exists_cons_of_ne_nil hc
  have hkeys : dict_keys []
      ((gpn_candidates s worder).map get_country_code) ≠ [] := by
    rw [hcand, List.map_cons]
    exact dict_keys_cons_ne_nil _ _
  obtain ⟨c0, cs, hk⟩ := List.exists_cons_of_ne_nil hkeys
  have hmain : get_phone_number s worder pick =
      gpn_select s (gpn_candidates s worder) c0 cs pick := by
    rw [get_phone_number, if_neg hp, hk]
  have hwit : ∀ c ∈ c0 :: cs,
      ∃ x ∈ gpn_candidates s worder, get_country_code x = c := by
    intro c hcmem
    have : c ∈ (gpn_candidates s worder).map get_country_code :=
      dict_keys_subset _ [] c (hk ▸ hcmem)
    obtain ⟨x, hx, hgx⟩ := List.mem_map.mp this
    exact ⟨x, hx, hgx⟩
  have h := gpn_select_spec s (gpn_candidates s worder) c0 cs pick hwit
  rw [hmain]
  exact ⟨h.1, h.2.1, h.2.2.1, h.2.2.2.1, h.2.2.2.2.1⟩

/-- A concrete manager with two distinct loaded numbers, both Indian,
and both health sets empty. -/
def pm_two : PhoneNumberManager :=
  { phone_numbers := ["+911234567890", ("+911234567891")]
    working_numbers := ∅
    failed_numbers := ∅
    current_index := 0
    last_used_country := none
    country_usage_count := fun _ => 0 }

/-- Claim C4 counterexample: with the `working` set empty and two
distinct loaded numbers, two consecutive selections (with the random
draw resolving to the first group member each time) both return the
first number, and the rotation index is left untouched — so selection
is not round-robin over the loaded list and consecutive selections do
not cycle through every loaded identity in order. -/
theorem get_phone_number_no_round_robin :
    (get_phone_number pm_two [] 0).1 = "+911234567890" ∧
    (get_phone_number (get_phone_number pm_two [] 0).2 [] 0).1 =
      "+911234567890" ∧
    pm_two.phone_numbers = ["+911234567890", ("+911234567891")] ∧
    ("+911234567890" : String) ≠ "+911234567891" ∧
    pm_two.working_numbers = ∅ ∧
    (get_phone_number pm_two [] 0).2.current_index =
      pm_two.current_index ∧
    (get_phone_number (get_phone_number pm_two [] 0).2 [] 0).2.current_index =
      pm_two.current_index := by
  decide

/-- Claim C4 (amended): when the `working` set is empty and the loaded
list is non-empty, `get_phone_number` returns a member of the full
loaded list chosen from the least-used country group (recorded in
`last_used_country`); the rotation index `current_index` is neither
consulted nor advanced and the loaded list is unchanged, so consecutive
selections need not cycle through the loaded identities in order. -/
theorem get_phone_number_fallback_spec (s : PhoneNumberManager)
    (worder : List String) (pick : Nat)
    (hw : s.working_numbers = ∅) (hp : s.phone_numbers ≠ []) :
    (get_phone_number s worder pick).1 ∈ s.phone_numbers ∧
    (get_phone_number s worder pick).2.current_index =
      s.current_index ∧
    (get_phone_number s worder pick).2.phone_numbers =
      s.phone_numbers ∧
    (get_phone_number s worder pick).2.last_used_country =
      some (get_country_code (get_phone_number s worder pick).1) := by
  have hcand : gpn_candidates s worder = s.phone_numbers := by
    rw [gpn_candidates, if_pos hw]
  have h := get_phone_number_spec s worder pick hp (by rw [hcand]; exact hp)
  rw [hcand] at h
  exact ⟨h.1, h.2.2.1, h.2.2.2.1, h.2.1⟩

/-- Claim C4 witness: the amended statement instantiated at the
concrete two-number manager in its initial state. -/
theorem get_phone_number_fallback_spec_witness :
    (get_phone_number pm_two [] 0).1 ∈ pm_two.phone_numbers ∧
    (get_phone_number pm_two [] 0).2.current_index =
      pm_two.current_index ∧
    (get_phone_number pm_two [] 0).2.phone_numbers =
      pm_two.phone_numbers ∧
    (get_phone_number pm_two [] 0).2.last_used_country =
      some (get_country_code (get_phone_number pm_two [] 0).1) :=
  get_phone_number_fallback_spec pm_two [] 0 (by decide) (by decide)

/-- Claim C9: when the `working` set is non-empty, `get_phone_number`
returns a member of the `working` set only, whatever the set-iteration
order and the random draw; failed or unclassified identities are never
selected while a working identity exists. -/
theorem get_phone_number_prefers_working (s : PhoneNumberManager)
    (worder : List String) (pick : Nat)
    (hw : s.working_numbers ≠ ∅)
    (hord : worder.toFinset = s.working_numbers)
    (hp : s.phone_numbers ≠ []) :
    (get_phone_number s worder pick).1 ∈ s.working_numbers := by
  have hwne : worder ≠ [] := by
    intro h
    rw [h] at hord
    exact hw (by simpa using hord.symm)
  have hcand : gpn_candidates s worder = worder := by
    rw [gpn_candidates, if_neg hw]
  have h := (get_phone_number_spec s worder pick hp
    (by rw [hcand]; exact hwne)).1
  rw [hcand] at h
  rw [← hord]
  exact List.mem_toFinset.mpr h

/-- A concrete manager with two loaded numbers of which exactly one is
classified working. -/
def pm_one_working : PhoneNumberManager :=
  { phone_numbers := ["+911234567890", ("+911234567891")]
    working_numbers := {"+911234567890"}
    failed_numbers := {"+911234567891"}
    current_index := 0
    last_used_country := none
    country_usage_count := fun _ => 0 }

/-- Claim C9 witness: with one working number, the selection returns a
member of the working set. -/
theorem get_phone_number_prefers_working_witness :
    (get_phone_number pm_one_working [("+911234567890")] 0).1 ∈
      pm_one_working.working_numbers :=
  get_phone_number_prefers_working pm_one_working [("+911234567890")] 0
    (by decide) (by decide) (by decide)

/-- Claim C7: in every reachable pool state (the working set is drawn
from the loaded list and loaded numbers are non-blank),
`get_phone_number` returns the empty string exactly when the loaded
list is empty, and returns a loaded identity otherwise. -/
theorem get_phone_number_empty_iff (s : PhoneNumberManager)
    (worder : List String) (pick : Nat)
    (hord : worder.toFinset = s.working_numbers)
    (hsub : s.working_numbers ⊆ s.phone_numbers.toFinset)
    (hblank : ("" : String) ∉ s.phone_numbers) :
    ((get_phone_number s worder pick).1 = "" ↔ s.phone_numbers = []) ∧
    (s.phone_numbers ≠ [] →
      (get_phone_number s worder pick).1 ∈ s.phone_numbers) := by
  by_cases hp : s.phone_numbers = []
  · refine ⟨⟨fun _ => hp, fun _ => ?_⟩, fun h => absurd hp h⟩
    rw [get_phone_number, if_pos hp]
  · have hmem : (get_phone_number s worder pick).1 ∈ s.phone_numbers := by
      by_cases hw : s.working_numbers = ∅
      · have hcand : gpn_candidates s worder = s.phone_numbers := by
          rw [gpn_candidates, if_pos hw]
        have h := (get_phone_number_spec s worder pick hp
          (by rw [hcand]; exact hp)).1
        rwa [hcand] at h
      · have hwne : worder ≠ [] := by
          intro h
          rw [h] at hord
          exact hw (by simpa using hord.symm)
        have hcand : gpn_candidates s worder = worder := by
          rw [gpn_candidates, if_neg hw]
        have h := (get_phone_number_spec s worder pick hp
          (by rw [hcand]; exact hwne)).1
        rw [hcand] at h
        have : (get_phone_number s worder pick).1 ∈ s.working_numbers := by
          rw [← hord]
          exact List.mem_toFinset.mpr h
        exact List.mem_toFinset.mp (hsub this)
    refine ⟨⟨fun he => ?_, fun h => absurd h hp⟩, fun _ => hmem⟩
    rw [he] at hmem
    exact absurd hmem hblank

/-- Claim C7 witness: the empty-iff property at a concrete reachable
state — a non-empty loaded list yields a loaded identity and not the
empty string. -/
theorem get_phone_number_empty_iff_witness :
    (((get_phone_number pm_one_working [("+911234567890")] 0).1 = "" ↔
        pm_one_working.phone_numbers = []) ∧
     (pm_one_working.phone_numbers ≠ [] →
        (get_phone_number pm_one_working [("+911234567890")] 0).1 ∈
          pm_one_working.phone_numbers)) :=
  get_phone_number_empty_iff pm_one_working [("+911234567890")] 0
    (by decide) (by decide) (by decide)

/-- The policy constant `MAX_RETRIES` of `bot.py`. -/
def MAX_RETRIES : Nat := 5

/-- The policy constant `CONCURRENT_REPORTS` of `bot.py`. -/
def CONCURRENT_REPORTS : Nat := 15

/-- The policy constant `REPORTS_PER_BATCH` of `bot.py`. -/
def REPORTS_PER_BATCH : Nat := 150

/-- The tri-state result of one unit of work, as observed by
`asyncio.gather(..., return_exceptions=True)` in `mass_report`: the
unit returned `True`, returned `False`, or raised `CancelledError`. -/
inductive UnitOutcome where
  | succeeded
  | failed
  | cancelled
  deriving DecidableEq

/-- The retry loop of `report_with_semaphore`: up to `fuel` iterations;
on iteration `i` the oracle `env i` gives the boolean result of
`report_with_number` and the cancellation flag observed after it.  A
successful call returns `succeeded`, a failed call with the flag set
raises `CancelledError`, and exhaustion returns `failed`. -/
def report_unit_retry (env : Nat → Bool × Bool) : Nat → Nat → UnitOutcome
  | 0, _ => UnitOutcome.failed
  | fuel + 1, i =>
    if (env i).1 then UnitOutcome.succeeded
    else if (env i).2 then UnitOutcome.cancelled
    else report_unit_retry env fuel (i + 1)

/-- `report_with_semaphore` of `mass_report`: raise `CancelledError`
immediately when the batch is already cancelled on entry, otherwise run
the `MAX_RETRIES` retry loop. -/
def report_with_semaphore (cancelledAtStart : Bool)
    (env : Nat → Bool × Bool) : UnitOutcome :=
  if cancelledAtStart then UnitOutcome.cancelled
  else report_unit_retry env MAX_RETRIES 0

/-- The settled results of one batch of `num_reports` spawned units,
unit `i` driven by its own entry flag `canc i` and attempt oracle
`envs i`. -/
def mass_report_results (num_reports : Nat) (canc : Nat → Bool)
    (envs : Nat → Nat → Bool × Bool) : List UnitOutcome :=
  (List.range num_reports).map
    (fun i => report_with_semaphore (canc i) (envs i))

/-- The tally taken by `mass_report` over the gathered results: how
many units settled with the given outcome. -/
def count_outcome (rs : List UnitOutcome) (o : UnitOutcome) : Nat :=
  (rs.filter (fun r => r == o)).length

lemma count_outcome_sum (rs : List UnitOutcome) :
    count_outcome rs UnitOutcome.succeeded +
    count_outcome rs UnitOutcome.failed +
    count_outcome rs UnitOutcome.cancelled = rs.length := by
  induction rs with
  | nil => rfl
  | cons r rs ih =>
    cases r <;> simp [count_outcome, List.filter_cons] at * <;> omega

/-- Claim C2: once a batch of `num_reports` units is settled, the
tallied counts satisfy succeeded + failed + cancelled = `num_reports`;
every spawned unit contributes exactly one of the three outcomes. -/
theorem mass_report_tally_complete (num_reports : Nat)
    (canc : Nat → Bool) (envs : Nat → Nat → Bool × Bool) :
    count_outcome (mass_report_results num_reports canc envs)
      UnitOutcome.succeeded +
    count_outcome (mass_report_results num_reports canc envs)
      UnitOutcome.failed +
    count_outcome (mass_report_results num_reports canc envs)
      UnitOutcome.cancelled = num_reports := by
  rw [count_outcome_sum, mass_report_results, List.length_map,
    List.length_range]

/-- Claim C2 witness: a concrete batch of three units, one of each
kind of driving oracle, tallies to three. -/
theorem mass_report_tally_complete_witness :
    count_outcome (mass_report_results 3
      (fun i => i == 2) (fun i _ => (i == 0, true)))
      UnitOutcome.succeeded +
    count_outcome (mass_report_results 3
      (fun i => i == 2) (fun i _ => (i == 0, true)))
      UnitOutcome.failed +
    count_outcome (mass_report_results 3
      (fun i => i == 2) (fun i _ => (i == 0, true)))
      UnitOutcome.cancelled = 3 :=
  mass_report_tally_complete 3 (fun i => i == 2)
    (fun i _ => (i == 0, true))

/-- The outcome of one iteration of the internal attempt loop of
`report_with_number`: the main call completed with a success
classification, completed without one, timed out, or raised. -/
inductive AttemptResult where
  | success
  | httpFail
  | timeout
  | error
  deriving DecidableEq

/-- Number of completed main (POST) calls observed by one attempt
iteration: a classified response means the main call went out; a
timeout or exception aborts the iteration before a main response is
read. -/
def attempt_main_calls : AttemptResult → Nat
  | AttemptResult.success => 1
  | AttemptResult.httpFail => 1
  | AttemptResult.timeout => 0
  | AttemptResult.error => 0

/-- The call trace of one `report_with_number` invocation: its boolean
result, how many iterations of the internal `for attempt in range(2)`
loop ran, how many auxiliary token-fetch (GET) calls were issued (one
per iteration), and how many main (POST) calls completed. -/
structure ReportCallTrace where
  result : Bool
  attempts : Nat
  aux_calls : Nat
  main_calls : Nat
  deriving DecidableEq

/-- `ReportBot.report_with_number`: return `False` at once when the
batch is already cancelled; otherwise run the internal two-iteration
attempt loop, stopping early on the first success and retrying once on
a failed classification, timeout or exception. -/
def report_with_number (cancelled : Bool) (a1 a2 : AttemptResult) :
    ReportCallTrace :=
  if cancelled then ⟨false, 0, 0, 0⟩
  else
    match a1 with
    | AttemptResult.success => ⟨true, 1, 1, 1⟩
    | r1 =>
      match a2 with
      | AttemptResult.success => ⟨true, 2, 2, attempt_main_calls r1 + 1⟩
      | r2 => ⟨false, 2, 2, attempt_main_calls r1 + attempt_main_calls r2⟩

/-- Claim C3 counterexample: with a failed first classification,
`report_with_number` runs a second internal iteration and completes two
main calls in one invocation, so it does retry internally and does not
perform exactly one outbound main call. -/
theorem report_with_number_retries_internally :
    (report_with_number false AttemptResult.httpFail
      AttemptResult.httpFail).attempts = 2 ∧
    (report_with_number false AttemptResult.httpFail
      AttemptResult.httpFail).main_calls = 2 ∧
    ¬((report_with_number false AttemptResult.httpFail
        AttemptResult.httpFail).attempts ≤ 1 ∧
      (report_with_number false AttemptResult.httpFail
        AttemptResult.httpFail).main_calls = 1) := by
  decide

/-- Claim C3 (amended): `report_with_number` runs at most two internal
attempt iterations (one internal retry), each issuing one auxiliary
token-fetch call, and completes at most two main calls; when the first
attempt succeeds on a non-cancelled batch it performs exactly one main
call preceded by exactly one auxiliary call.  Further retrying beyond
this internal pair is the caller's loop. -/
theorem report_with_number_attempt_bound (cancelled : Bool)
    (a1 a2 : AttemptResult) :
    (report_with_number cancelled a1 a2).attempts ≤ 2 ∧
    (report_with_number cancelled a1 a2).main_calls ≤ 2 ∧
    (report_with_number cancelled a1 a2).aux_calls =
      (report_with_number cancelled a1 a2).attempts ∧
    (cancelled = false → a1 = AttemptResult.success →
      (report_with_number cancelled a1 a2).attempts = 1 ∧
      (report_with_number cancelled a1 a2).aux_calls = 1 ∧
      (report_with_number cancelled a1 a2).main_calls = 1) := by
  cases cancelled <;> cases a1 <;> cases a2 <;> decide

/-- Claim C3 witness: the single-attempt case at a concrete input. -/
theorem report_with_number_attempt_bound_witness :
    (report_with_number false AttemptResult.success
      AttemptResult.error).attempts = 1 ∧
    (report_with_number false AttemptResult.success
      AttemptResult.error).aux_calls = 1 ∧
    (report_with_number false AttemptResult.success
      AttemptResult.error).main_calls = 1 :=
  (report_with_number_attempt_bound false AttemptResult.success
    AttemptResult.error).2.2.2 rfl rfl

/-- One task handle of a batch, abstracted to whether it had already
settled (`task.done()`) when `cancel_user_tasks` inspected it. -/
structure UnitTask where
  done : Bool
  deriving DecidableEq

/-- One entry of `ReportBot.active_tasks`: the set of spawned task
handles, the cancellation flag, and the start timestamp. -/
structure ActiveEntry where
  tasks : List UnitTask
  cancelled : Bool
  start_time : Nat
  deriving DecidableEq

/-- `ReportBot.cancel_user_tasks` for one requester: with no entry the
count is `0`; with an entry, set the cancellation flag, request
cancellation of every not-yet-done task and return how many such tasks
were interrupted (settled tasks are not counted). -/
def cancel_user_tasks (entry : Option ActiveEntry) :
    Nat × Option ActiveEntry :=
  match entry with
  | none => (0, none)
  | some e =>
    ((e.tasks.filter (fun t => !t.done)).length,
     some { e with cancelled := true })

/-- Claim C5: cancelling with no live entry returns `0` (and is not an
error), and cancelling an entry returns exactly the number of its
still-pending tasks — in particular never more than `k` when `k` tasks
are pending, and never more than the number of spawned tasks. -/
theorem cancel_user_tasks_count_spec (entry : Option ActiveEntry) :
    (entry = none → (cancel_user_tasks entry).1 = 0) ∧
    (∀ e, entry = some e →
      (cancel_user_tasks entry).1 =
        (e.tasks.filter (fun t => !t.done)).length ∧
      (cancel_user_tasks entry).1 ≤ e.tasks.length) := by
  cases entry with
  | none =>
    refine ⟨fun _ => rfl, fun e h => ?_⟩
    cases h
  | some e0 =>
    refine ⟨fun h => (nomatch h), fun e h => ?_⟩
    have he : e0 = e := Option.some.inj h
    subst he
    exact ⟨rfl, List.length_filter_le _ _⟩

/-- A concrete registry entry with one settled and one pending task. -/
def entry_mixed : ActiveEntry :=
  { tasks := [⟨true⟩, ⟨false⟩], cancelled := false, start_time := 0 }

/-- Claim C5 witness: with one settled and one pending task exactly one
task is counted, and with no entry the count is zero. -/
theorem cancel_user_tasks_count_spec_witness :
    (cancel_user_tasks (some entry_mixed)).1 =
      (entry_mixed.tasks.filter (fun t => !t.done)).length ∧
    (cancel_user_tasks (some entry_mixed)).1 ≤ entry_mixed.tasks.length ∧
    (cancel_user_tasks (none : Option ActiveEntry)).1 = 0 :=
  ⟨((cancel_user_tasks_count_spec (some entry_mixed)).2 entry_mixed rfl).1,
   ((cancel_user_tasks_count_spec (some entry_mixed)).2 entry_mixed rfl).2,
   (cancel_user_tasks_count_spec none).1 rfl⟩

/-- The state of `ReportBot` relevant to batch admission: the identity
pool and the `active_tasks` registry mapping requester ids to entries. -/
structure ReportBotState where
  phone_manager : PhoneNumberManager
  active_tasks : Nat → Option ActiveEntry

/-- Outcome of the admission phase of `ReportBot.mass_report`. -/
inductive MassReportAdmission where
  | noNumbers
  | alreadyActive
  | admitted
  deriving DecidableEq

/-- Python truthiness of `active_tasks[user_id].get('tasks')` guarded
by `user_id in active_tasks`: an entry exists and its task set is
non-empty. -/
def entry_is_active (entry : Option ActiveEntry) : Bool :=
  match entry with
  | none => false
  | some e => !e.tasks.isEmpty

/-- The admission phase of `ReportBot.mass_report`: reject when no
numbers are loaded, reject when the requester already has an entry with
a non-empty task set, otherwise install a fresh entry (empty task set,
flag cleared, the given start time). -/
def mass_report_gate (st : ReportBotState) (user_id : Nat)
    (start_time : Nat) : MassReportAdmission × ReportBotState :=
  if st.phone_manager.phone_numbers.isEmpty then
    (MassReportAdmission.noNumbers, st)
  else if entry_is_active (st.active_tasks user_id) then
    (MassReportAdmission.alreadyActive, st)
  else
    (MassReportAdmission.admitted,
     { st with
       active_tasks := fun u =>
         if u = user_id then some ⟨[], false, start_time⟩
         else st.active_tasks u })

/-- The `finally` block of `ReportBot.mass_report`: once all units have
settled, clear the entry's task set and reset its cancellation flag
(the entry itself stays in the registry). -/
def close_user_batch (st : ReportBotState) (user_id : Nat) :
    ReportBotState :=
  match st.active_tasks user_id with
  | none => st
  | some e =>
    { st with
      active_tasks := fun u =>
        if u = user_id then some { e with tasks := [], cancelled := false }
        else st.active_tasks u }

/-- Claim C6: while a requester's batch is running (its entry has a
non-empty task set), a second `mass_report` from the same requester is
rejected as already active; after the batch closes (task set cleared by
the `finally` block) a new request from that requester is admitted
again. -/
theorem mass_report_readmission (st : ReportBotState)
    (user_id start_time : Nat) (e : ActiveEntry)
    (hp : st.phone_manager.phone_numbers ≠ [])
    (he : st.active_tasks user_id = some e)
    (ht : e.tasks ≠ []) :
    (mass_report_gate st user_id start_time).1 =
      MassReportAdmission.alreadyActive ∧
    (mass_report_gate (close_user_batch st user_id) user_id
      start_time).1 = MassReportAdmission.admitted := by
  have hpe : st.phone_manager.phone_numbers.isEmpty = false := by
    simpa [List.isEmpty_iff] using hp
  have hact : entry_is_active (st.active_tasks user_id) = true := by
    rw [he, entry_is_active]
    simpa [List.isEmpty_iff] using ht
  constructor
  · rw [mass_report_gate, hpe, hact]
    simp
  · have hclose : close_user_batch st user_id =
        { st with
          active_tasks := fun u =>
            if u = user_id then
              some { e with tasks := [], cancelled := false }
            else st.active_tasks u } := by
      rw [close_user_batch, he]
    rw [hclose, mass_report_gate]
    simp [entry_is_active, hpe]

/-- A concrete bot state in which requester `7` has a running batch
with one pending task. -/
def bot_state_running : ReportBotState :=
  { phone_manager := pm_two
    active_tasks := fun u =>
      if u = 7 then
        some { tasks := [⟨false⟩], cancelled := false, start_time := 0 }
      else none }

/-- Claim C6 witness: requester `7` is rejected while their batch runs
and admitted again after it closes. -/
theorem mass_report_readmission_witness :
    (mass_report_gate bot_state_running 7 1).1 =
      MassReportAdmission.alreadyActive ∧
    (mass_report_gate (close_user_batch bot_state_running 7) 7 1).1 =
      MassReportAdmission.admitted :=
  mass_report_readmission bot_state_running 7 1
    { tasks := [⟨false⟩], cancelled := false, start_time := 0 }
    (by decide) (by decide) (by decide)

/-- Claim C8: a `mass_report` request from a requester who already owns
a live batch is not admitted, and the whole bot state — the existing
entry, its cancellation flag and task set, and the identity pool with
its health sets — is returned unchanged. -/
theorem mass_report_reject_no_mutation (st : ReportBotState)
    (user_id start_time : Nat) (e : ActiveEntry)
    (he : st.active_tasks user_id = some e)
    (ht : e.tasks ≠ []) :
    (mass_report_gate st user_id start_time).2 = st ∧
    (mass_report_gate st user_id start_time).1 ≠
      MassReportAdmission.admitted := by
  have hact : entry_is_active (st.active_tasks user_id) = true := by
    rw [he, entry_is_active]
    simpa [List.isEmpty_iff] using ht
  rw [mass_report_gate]
  by_cases hpe : st.phone_manager.phone_numbers.isEmpty = true
  · rw [if_pos hpe]
    exact ⟨rfl, by simp⟩
  · rw [if_neg hpe, if_pos hact]
    exact ⟨rfl, by simp⟩

/-- Claim C8 witness: the rejection at the concrete running state
leaves the state untouched. -/
theorem mass_report_reject_no_mutation_witness :
    (mass_report_gate bot_state_running 7 1).2 = bot_state_running ∧
    (mass_report_gate bot_state_running 7 1).1 ≠
      MassReportAdmission.admitted :=
  mass_report_reject_no_mutation bot_state_running 7 1
    { tasks := [⟨false⟩], cancelled := false, start_time := 0 }
    (by decide) (by decide)
